import Mathlib

/-!
Shallow embedding of the Demand Forecasting & Production Planning Engine
(`src/pages/Forecast.tsx` together with the data model of `src/types/index.ts`
and the `sales_data` schema of `create-sales-table.sql`).

Conventions of the embedding:
* Calendar dates are absolute day numbers (days since 1970-01-01, UTC), so
  JavaScript `new Date(d).getDay()` becomes `getDay d = (d + 4) % 7`
  (1970-01-01 was a Thursday, ordinal 4 in the 0 = Sunday convention).
* `quantity_sold` is a `Nat`: the `sales_data` column is `INTEGER` with
  `CHECK (quantity_sold > 0)`, so its value domain is contained in `Nat`.
* JavaScript `Math.ceil(total / weeks)` on integer inputs is exact ceiling
  division, embedded as `(total + weeks - 1) / weeks` on `Nat`.
* The Supabase result of `.order('sale_date', { ascending: false })` is
  modelled by an insertion sort on the fetched rows; callers of the
  in-memory computation may also assume sortedness by hypothesis.
* Fallible store calls (`products` / `sales_data` fetch, plan delete, plan
  insert) are modelled by Boolean failure flags; database-generated
  surrogate columns (`id`, `created_at`) are omitted from persisted rows.
-/

/-- Time-slot enumeration (`TimePeriod` in `src/types/index.ts`). -/
inductive TimePeriod
  | Breakfast
  | Lunch
  | Afternoon
deriving DecidableEq, Repr

/-- Entry of the `TIME_PERIODS` constant: value with display label and hours. -/
structure TimePeriodInfo where
  value : TimePeriod
  label : String
  hours : String
deriving DecidableEq, Repr

/-- The `TIME_PERIODS` constant of `src/types/index.ts`. -/
def TIME_PERIODS : List TimePeriodInfo :=
  [⟨TimePeriod.Breakfast, "Breakfast", "6-11am"⟩,
   ⟨TimePeriod.Lunch, "Lunch", "11am-3pm"⟩,
   ⟨TimePeriod.Afternoon, "Afternoon", "3pm-8pm"⟩]

/-- `Product` (the fields the forecaster reads). -/
structure Product where
  id : String
  name : String
  active : Bool
deriving DecidableEq, Repr

/-- `SalesData` row (the fields the forecaster reads); `sale_date` is an
absolute day number. -/
structure SalesData where
  product_id : String
  sale_date : Nat
  time_period : TimePeriod
  quantity_sold : Nat
deriving DecidableEq, Repr

/-- `ForecastItem` of `src/types/index.ts`. `manual_override` is an `Option
Int` because `updateManualOverride` stores any non-NaN `parseInt` result,
negative values included. -/
structure ForecastItem where
  product_id : String
  product_name : String
  time_period : TimePeriod
  forecast_quantity : Nat
  manual_override : Option Int
  last_week_quantity : Option Nat
  weeks_of_data : Nat
  has_warning : Bool
deriving DecidableEq, Repr

/-- Persisted `production_plans` row as built in `saveProductionPlan`
(database-generated `id` / `created_at` omitted). -/
structure ProductionPlan where
  plan_date : Nat
  product_id : String
  time_period : TimePeriod
  forecast_quantity : Nat
  adjusted_quantity : Option Int
deriving DecidableEq, Repr

/-- Toast severity of the `Toast` component. -/
inductive ToastType
  | success
  | error
  | info
deriving DecidableEq, Repr

/-- A toast notification: message text and severity. -/
structure Toast where
  message : String
  ttype : ToastType
deriving DecidableEq, Repr

/-- JavaScript weekday of an absolute day number (0 = Sunday). -/
def getDay (d : Nat) : Nat := (d + 4) % 7

/-- The filter of `generateForecasts` (lines 72-80): sales for this product,
this time period, and the same day of week as the target date. -/
def relevantSales (pid : String) (tp : TimePeriod) (dow : Nat)
    (salesData : List SalesData) : List SalesData :=
  salesData.filter fun sale =>
    decide (sale.product_id = pid ∧ sale.time_period = tp ∧
      getDay sale.sale_date = dow)

/-- `relevantSales.slice(0, 3)`: the at most three most recent retained
observations (the fetched list is ordered by `sale_date` descending). -/
def recentSalesFor (pid : String) (tp : TimePeriod) (dow : Nat)
    (salesData : List SalesData) : List SalesData :=
  (relevantSales pid tp dow salesData).take 3

/-- Loop body of `generateForecasts` (lines 71-110) for one
(product, time-slot) pair: `none` when the pair has no qualifying history. -/
def forecastForPair (product : Product) (tp : TimePeriod) (dow : Nat)
    (salesData : List SalesData) : Option ForecastItem :=
  if relevantSales product.id tp dow salesData = [] then
    none
  else
    let recentSales := recentSalesFor product.id tp dow salesData
    let weeksOfData := recentSales.length
    let totalSold := (recentSales.map SalesData.quantity_sold).sum
    let forecastQty := (totalSold + weeksOfData - 1) / weeksOfData
    some
      { product_id := product.id
        product_name := product.name
        time_period := tp
        forecast_quantity := forecastQty
        manual_override := none
        last_week_quantity := (recentSales.head?).map SalesData.quantity_sold
        weeks_of_data := weeksOfData
        has_warning := decide (weeksOfData < 3) }

/-- The nested product × time-period loop of `generateForecasts`
(lines 67-111): one optional item per (product, slot) pair. -/
def computeForecasts (products : List Product) (salesData : List SalesData)
    (dow : Nat) : List ForecastItem :=
  products.flatMap fun product =>
    TIME_PERIODS.filterMap fun period =>
      forecastForPair product period.value dow salesData

/-- Descending insertion by `sale_date` (model of the store ordering). -/
def insertByDateDesc (s : SalesData) : List SalesData → List SalesData
  | [] => [s]
  | t :: ts =>
    if t.sale_date ≤ s.sale_date then s :: t :: ts
    else t :: insertByDateDesc s ts

/-- Sort by `sale_date` descending, the order requested by the sales fetch
(`.order('sale_date', { ascending: false })`). -/
def sortByDateDesc : List SalesData → List SalesData
  | [] => []
  | s :: ss => insertByDateDesc s (sortByDateDesc ss)

/-- Ascending insertion by product name (model of `.order('name')`). -/
def insertByName (p : Product) : List Product → List Product
  | [] => [p]
  | q :: qs =>
    if p.name ≤ q.name then p :: q :: qs
    else q :: insertByName p qs

/-- Sort products by name ascending. -/
def sortByName : List Product → List Product
  | [] => []
  | p :: ps => insertByName p (sortByName ps)

/-- Full `generateForecasts` (lines 36-129): fetch active products sorted by
name, fetch the trailing 28-day sales window sorted by date descending,
compute, and set the forecast state and a toast. `productsFail` / `salesFail`
model storage failures of the two fetches (the `catch` branch); on the paths
that return early the previous forecast state `prev` is left in place. -/
def generateForecasts (productsFail salesFail : Bool)
    (catalog : List Product) (ledger : List SalesData) (today : Nat)
    (prev : List ForecastItem) : List ForecastItem × Toast :=
  if productsFail then
    (prev, ⟨"Failed to generate forecast", ToastType.error⟩)
  else
    let products := sortByName (catalog.filter Product.active)
    if products = [] then
      (prev, ⟨"No active products found", ToastType.error⟩)
    else if salesFail then
      (prev, ⟨"Failed to generate forecast", ToastType.error⟩)
    else
      let dow := getDay (today + 1)
      let salesData :=
        sortByDateDesc (ledger.filter fun s => decide (today - 28 ≤ s.sale_date))
      let newForecasts := computeForecasts products salesData dow
      if newForecasts = [] then
        (newForecasts,
          ⟨"No forecast data available. This is likely your first week - enter quantities manually.",
            ToastType.info⟩)
      else
        (newForecasts, ⟨"Forecast generated successfully", ToastType.success⟩)

/-- Row built from one `ForecastItem` in `saveProductionPlan` (lines 142-148). -/
def toPlanRow (planDate : Nat) (f : ForecastItem) : ProductionPlan :=
  { plan_date := planDate
    product_id := f.product_id
    time_period := f.time_period
    forecast_quantity := f.forecast_quantity
    adjusted_quantity := f.manual_override }

/-- `saveProductionPlan` (lines 132-180) over an explicit store of persisted
rows. The guard rejects an empty forecast set. The delete call's result is
discarded by the code, so `deleteFails` leaves the store untouched and
execution continues; `insertFails` models the checked insert error (the
thrown/caught path). -/
def saveProductionPlan (deleteFails insertFails : Bool) (planDate : Nat)
    (forecasts : List ForecastItem) (store : List ProductionPlan) :
    List ProductionPlan × Toast :=
  if forecasts = [] then
    (store, ⟨"No forecast to save. Generate forecast first.", ToastType.error⟩)
  else
    let productionPlans := forecasts.map (toPlanRow planDate)
    let store1 :=
      if deleteFails then store
      else store.filter fun p => decide (p.plan_date ≠ planDate)
    if insertFails then
      (store1, ⟨"Failed to save production plan", ToastType.error⟩)
    else
      (store1 ++ productionPlans, ⟨"Production plan saved successfully", ToastType.success⟩)

/-- JavaScript `parseInt(value, 10)` restricted to what the override input
can produce: skip leading spaces, optional sign, then a leading digit run;
`none` is `NaN` (no digits); trailing non-digits are ignored. -/
def parseIntJS (value : String) : Option Int :=
  let cs := value.toList.dropWhile fun c => c = ' '
  let signed : Bool × List Char :=
    match cs with
    | '-' :: rest => (true, rest)
    | '+' :: rest => (false, rest)
    | other => (false, other)
  let digits := signed.2.takeWhile Char.isDigit
  if digits = [] then none
  else
    let n : Nat := digits.foldl (fun acc c => 10 * acc + (c.toNat - 48)) 0
    some (if signed.1 then -(n : Int) else (n : Int))

/-- `updateManualOverride` (lines 183-194): map over the forecast state,
replacing `manual_override` on the matching item. -/
def updateManualOverride (productId : String) (timePeriod : TimePeriod)
    (value : String) (prev : List ForecastItem) : List ForecastItem :=
  prev.map fun forecast =>
    if forecast.product_id = productId ∧ forecast.time_period = timePeriod then
      { forecast with
          manual_override := if value = "" then none else parseIntJS value }
    else forecast

/-- Final displayed quantity `manual_override ?? forecast_quantity`
(used by `getComparison`, the print column and the summary). -/
def displayedFinalQty (item : ForecastItem) : Int :=
  item.manual_override.getD (item.forecast_quantity : Int)

/-! ### Concrete fixtures used by the witness theorems -/

/-- Witness sales ledger: three Sunday Lunch observations for product pA
(quantities 10, 14, 12) and one Saturday observation that must not count;
ordered by date descending as the fetch returns them. -/
def wSales3 : List SalesData :=
  [⟨"pA", 24, TimePeriod.Lunch, 10⟩,
   ⟨"pA", 23, TimePeriod.Lunch, 99⟩,
   ⟨"pA", 17, TimePeriod.Lunch, 14⟩,
   ⟨"pA", 10, TimePeriod.Lunch, 12⟩]

/-- Witness product. -/
def wProduct : Product := ⟨"pA", "Bread", true⟩

/-- Witness store: one stale row for date 77 and one row of another date. -/
def wStore : List ProductionPlan :=
  [⟨77, "pA", TimePeriod.Lunch, 5, none⟩,
   ⟨60, "pB", TimePeriod.Breakfast, 2, none⟩]

/-- Witness forecast set: one item for product pA, Lunch. -/
def wForecasts : List ForecastItem :=
  [⟨"pA", "Bread", TimePeriod.Lunch, 12, none, some 10, 3, false⟩]

/-- Witness item with computed forecast 8 and no override. -/
def wItem8 : ForecastItem :=
  ⟨"pA", "Bread", TimePeriod.Lunch, 8, none, none, 3, false⟩

example : getDay 0 = 4 := by decide

example :
    parseIntJS "-3" = some (-3) ∧ parseIntJS "" = none ∧
      parseIntJS "abc" = none ∧ parseIntJS "12" = some 12 := by decide

/-! ### Helper lemmas -/

/-- Ceiling division on `Nat` agrees with the ceiling of the exact rational
quotient, which is what `Math.ceil(total / weeks)` computes on integer
inputs. -/
theorem natCeilDiv_eq_ceil (total n : Nat) (hn : 0 < n) :
    (((total + n - 1) / n : Nat) : ℤ) = ⌈(total : ℚ) / (n : ℚ)⌉ := by
  have hn0 : (0 : ℚ) < (n : ℚ) := by exact_mod_cast hn
  have h1 : n * ((total + n - 1) / n) + (total + n - 1) % n = total + n - 1 :=
    Nat.div_add_mod (total + n - 1) n
  have h2 : (total + n - 1) % n < n := Nat.mod_lt _ hn
  have key : total ≤ n * ((total + n - 1) / n) ∧
      n * ((total + n - 1) / n) < total + n := by
    generalize hK : n * ((total + n - 1) / n) = K at h1
    omega
  symm
  rw [Int.ceil_eq_iff]
  constructor
  · rw [lt_div_iff₀ hn0, sub_mul, one_mul, sub_lt_iff_lt_add]
    have h3 : ((total + n - 1) / n) * n < total + n := by
      rw [Nat.mul_comm]; exact key.2
    exact_mod_cast h3
  · rw [div_le_iff₀ hn0]
    have h4 : total ≤ ((total + n - 1) / n) * n := by
      rw [Nat.mul_comm]; exact key.1
    exact_mod_cast h4

/-- Unfolding of a successful `forecastForPair`: every field of the emitted
item in terms of the retained observations. -/
theorem forecastForPair_some_spec {p : Product} {tp : TimePeriod} {dow : Nat}
    {sd : List SalesData} {item : ForecastItem}
    (h : forecastForPair p tp dow sd = some item) :
    relevantSales p.id tp dow sd ≠ [] ∧
    item.product_id = p.id ∧
    item.product_name = p.name ∧
    item.time_period = tp ∧
    item.weeks_of_data = (recentSalesFor p.id tp dow sd).length ∧
    item.forecast_quantity =
      (((recentSalesFor p.id tp dow sd).map SalesData.quantity_sold).sum +
        (recentSalesFor p.id tp dow sd).length - 1) /
        (recentSalesFor p.id tp dow sd).length ∧
    item.has_warning = decide ((recentSalesFor p.id tp dow sd).length < 3) ∧
    item.last_week_quantity =
      ((recentSalesFor p.id tp dow sd).head?).map SalesData.quantity_sold := by
  unfold forecastForPair at h
  by_cases hrel : relevantSales p.id tp dow sd = []
  · rw [if_pos hrel] at h
    exact absurd h (by simp)
  · rw [if_neg hrel] at h
    have h' := Option.some.inj h
    subst h'
    exact ⟨hrel, rfl, rfl, rfl, rfl, rfl, rfl, rfl⟩

/-- Membership in `computeForecasts` is emission by some product of the
catalog and some defined time slot. -/
theorem mem_computeForecasts_iff {ps : List Product} {sd : List SalesData}
    {dow : Nat} {item : ForecastItem} :
    item ∈ computeForecasts ps sd dow ↔
      ∃ p ∈ ps, ∃ info ∈ TIME_PERIODS,
        forecastForPair p info.value dow sd = some item := by
  unfold computeForecasts
  simp [List.mem_flatMap, List.mem_filterMap]

/-- Every `TimePeriod` value occurs in the `TIME_PERIODS` constant. -/
theorem timePeriod_mem_TIME_PERIODS (tp : TimePeriod) :
    ∃ info ∈ TIME_PERIODS, info.value = tp := by
  cases tp
  · exact ⟨TIME_PERIODS[0], by decide, rfl⟩
  · exact ⟨TIME_PERIODS[1], by decide, rfl⟩
  · exact ⟨TIME_PERIODS[2], by decide, rfl⟩

/-! ### Claims -/

/-- Claim C1: for every (product, time-slot) pair with between one and three
qualifying observations, all of them are retained and the emitted item's
`forecast_quantity` is the ceiling of their arithmetic mean. -/
theorem claim1_forecast_is_ceiling_of_mean (product : Product)
    (tp : TimePeriod) (dow : Nat) (salesData : List SalesData)
    (hne : relevantSales product.id tp dow salesData ≠ [])
    (hle : (relevantSales product.id tp dow salesData).length ≤ 3) :
    ∃ item, forecastForPair product tp dow salesData = some item ∧
      (item.forecast_quantity : ℤ) =
        ⌈(((relevantSales product.id tp dow salesData).map
            SalesData.quantity_sold).sum : ℚ) /
          ((relevantSales product.id tp dow salesData).length : ℚ)⌉ ∧
      (∀ ps : List Product, product ∈ ps →
        item ∈ computeForecasts ps salesData dow) := by
  set rel := relevantSales product.id tp dow salesData with hrel
  have htake : recentSalesFor product.id tp dow salesData = rel := by
    unfold recentSalesFor
    rw [← hrel]
    exact List.take_of_length_le hle
  have hitem : forecastForPair product tp dow salesData =
      some { product_id := product.id
             product_name := product.name
             time_period := tp
             forecast_quantity :=
               (((recentSalesFor product.id tp dow salesData).map
                   SalesData.quantity_sold).sum +
                 (recentSalesFor product.id tp dow salesData).length - 1) /
                 (recentSalesFor product.id tp dow salesData).length
             manual_override := none
             last_week_quantity :=
               ((recentSalesFor product.id tp dow salesData).head?).map
                 SalesData.quantity_sold
             weeks_of_data := (recentSalesFor product.id tp dow salesData).length
             has_warning :=
               decide ((recentSalesFor product.id tp dow salesData).length < 3) } := by
    unfold forecastForPair
    rw [if_neg (by rw [← hrel]; exact hne)]
  refine ⟨_, hitem, ?_, ?_⟩
  · have hlen : 0 < rel.length := List.length_pos.mpr hne
    have hmaplen : (rel.map SalesData.quantity_sold).length = rel.length :=
      List.length_map _ _
    simp only [htake]
    exact natCeilDiv_eq_ceil _ _ hlen
  · intro ps hps
    rw [mem_computeForecasts_iff]
    obtain ⟨info, hinfo, hval⟩ := timePeriod_mem_TIME_PERIODS tp
    exact ⟨product, hps, info, hinfo, by rw [hval]; exact hitem⟩

/-- Concrete instance of claim C1 at product pA, slot Lunch, Sunday. -/
theorem claim1_witness :
    ∃ item, forecastForPair wProduct TimePeriod.Lunch 0 wSales3 = some item ∧
      (item.forecast_quantity : ℤ) =
        ⌈(((relevantSales wProduct.id TimePeriod.Lunch 0 wSales3).map
            SalesData.quantity_sold).sum : ℚ) /
          ((relevantSales wProduct.id TimePeriod.Lunch 0 wSales3).length : ℚ)⌉ ∧
      (∀ ps : List Product, wProduct ∈ ps →
        item ∈ computeForecasts ps wSales3 0) :=
  claim1_forecast_is_ceiling_of_mean wProduct TimePeriod.Lunch 0 wSales3
    (by decide) (by decide)

/-- Claim C2: only observations with the pair's product, time slot and the
target weekday are retained; with the fetched list sorted by date descending
the at most three retained observations are the most recent matching ones;
an observation failing the match never influences the pair's forecast; and
a pair with no matching observation yields no item at all. -/
theorem claim2_weekday_product_slot_filter (product : Product)
    (tp : TimePeriod) (dow : Nat) (salesData l1 l2 : List SalesData)
    (s : SalesData) (ps : List Product) (pid : String) :
    (∀ t ∈ recentSalesFor product.id tp dow salesData,
      t.product_id = product.id ∧ t.time_period = tp ∧
        getDay t.sale_date = dow) ∧
    ((recentSalesFor product.id tp dow salesData).length ≤ 3) ∧
    (salesData.Pairwise (fun a b => b.sale_date ≤ a.sale_date) →
      (recentSalesFor product.id tp dow salesData).Pairwise
        (fun a b => b.sale_date ≤ a.sale_date) ∧
      ∀ t ∈ recentSalesFor product.id tp dow salesData,
        ∀ u ∈ (relevantSales product.id tp dow salesData).drop 3,
          u.sale_date ≤ t.sale_date) ∧
    (¬(s.product_id = product.id ∧ s.time_period = tp ∧
        getDay s.sale_date = dow) →
      forecastForPair product tp dow (l1 ++ s :: l2) =
        forecastForPair product tp dow (l1 ++ l2)) ∧
    (relevantSales pid tp dow salesData = [] →
      ∀ item ∈ computeForecasts ps salesData dow,
        ¬(item.product_id = pid ∧ item.time_period = tp)) := by
  refine ⟨?_, ?_, ?_, ?_, ?_⟩
  · intro t ht
    have ht' : t ∈ relevantSales product.id tp dow salesData :=
      List.take_subset 3 _ ht
    unfold relevantSales at ht'
    have := (List.mem_filter.mp ht').2
    exact of_decide_eq_true this
  · unfold recentSalesFor
    exact le_trans (List.length_take_le 3 _) (le_refl 3)
  · intro hsorted
    have hrelSorted :
        (relevantSales product.id tp dow salesData).Pairwise
          (fun a b => b.sale_date ≤ a.sale_date) :=
      List.Pairwise.filter _ hsorted
    constructor
    · exact List.Pairwise.sublist (List.take_sublist 3 _) hrelSorted
    · have hsplit := List.take_append_drop 3
        (relevantSales product.id tp dow salesData)
    -- decompose pairwise over the take/drop split of the matching list
      have := (List.pairwise_append.mp (hsplit.symm ▸ hrelSorted)).2.2
      intro t ht u hu
      exact this t ht u hu
  · intro hnomatch
    have hs : (decide (s.product_id = product.id ∧ s.time_period = tp ∧
        getDay s.sale_date = dow)) = false := by
      exact decide_eq_false hnomatch
    have hrel : relevantSales product.id tp dow (l1 ++ s :: l2) =
        relevantSales product.id tp dow (l1 ++ l2) := by
      unfold relevantSales
      rw [List.filter_append, List.filter_append,
        List.filter_cons_of_neg (by simp [hs])]
    unfold forecastForPair recentSalesFor
    rw [hrel]
  · intro hrel item hitem hbad
    obtain ⟨p, _, info, _, hpair⟩ := mem_computeForecasts_iff.mp hitem
    obtain ⟨hne, hid, _, htp, _⟩ := forecastForPair_some_spec hpair
    apply hne
    rw [← hbad.1, hid] at hrel
    rw [← hbad.2, htp] at hrel
    exact hrel

/-- Concrete instance of claim C2: product pA, slot Lunch, Sunday target,
a Saturday observation as the non-matching insertion, and an unknown
product id with no history. -/
theorem claim2_witness :
    (∀ t ∈ recentSalesFor wProduct.id TimePeriod.Lunch 0 wSales3,
      t.product_id = wProduct.id ∧ t.time_period = TimePeriod.Lunch ∧
        getDay t.sale_date = 0) ∧
    ((recentSalesFor wProduct.id TimePeriod.Lunch 0 wSales3).length ≤ 3) ∧
    ((recentSalesFor wProduct.id TimePeriod.Lunch 0 wSales3).Pairwise
        (fun a b => b.sale_date ≤ a.sale_date) ∧
      ∀ t ∈ recentSalesFor wProduct.id TimePeriod.Lunch 0 wSales3,
        ∀ u ∈ (relevantSales wProduct.id TimePeriod.Lunch 0 wSales3).drop 3,
          u.sale_date ≤ t.sale_date) ∧
    (forecastForPair wProduct TimePeriod.Lunch 0
        ([] ++ ⟨"pA", 23, TimePeriod.Lunch, 99⟩ :: wSales3) =
      forecastForPair wProduct TimePeriod.Lunch 0 ([] ++ wSales3)) ∧
    (∀ item ∈ computeForecasts [wProduct] wSales3 0,
      ¬(item.product_id = "nosuch" ∧ item.time_period = TimePeriod.Lunch)) := by
  have h := claim2_weekday_product_slot_filter wProduct TimePeriod.Lunch 0
    wSales3 [] wSales3 ⟨"pA", 23, TimePeriod.Lunch, 99⟩ [wProduct] "nosuch"
  exact ⟨h.1, h.2.1, h.2.2.1 (by decide), h.2.2.2.1 (by decide),
    h.2.2.2.2 (by decide)⟩

/-- Unfolding of a successful commit: prior rows for the date removed, the
new rows appended, success reported. -/
theorem saveProductionPlan_ok (planDate : Nat) (fs : List ForecastItem)
    (store : List ProductionPlan) (hfs : fs ≠ []) :
    saveProductionPlan false false planDate fs store =
      (store.filter (fun p => decide (p.plan_date ≠ planDate)) ++
          fs.map (toPlanRow planDate),
        ⟨"Production plan saved successfully", ToastType.success⟩) := by
  unfold saveProductionPlan
  rw [if_neg hfs]
  rfl

/-- Every inserted row carries the commit plan date. -/
theorem planRow_date (planDate : Nat) (fs : List ForecastItem) :
    ∀ r ∈ fs.map (toPlanRow planDate), r.plan_date = planDate := by
  intro r hr
  obtain ⟨f, _, rfl⟩ := List.mem_map.mp hr
  rfl

/-- Claim C3: committing the same non-empty forecast set twice for the same
date is idempotent on the store; the rows persisted for the date are exactly
the committed set (delete then insert, replace not merge), with no duplicate
(product, slot) keys and no residue, while rows of other dates are kept. -/
theorem claim3_commit_idempotent_replace (planDate : Nat)
    (fs : List ForecastItem) (store : List ProductionPlan)
    (hfs : fs ≠ [])
    (hkeys : fs.Pairwise (fun a b =>
      (a.product_id, a.time_period) ≠ (b.product_id, b.time_period))) :
    (saveProductionPlan false false planDate fs
        (saveProductionPlan false false planDate fs store).1).1 =
      (saveProductionPlan false false planDate fs store).1 ∧
    ((saveProductionPlan false false planDate fs store).1.filter
        (fun p => decide (p.plan_date = planDate))) =
      fs.map (toPlanRow planDate) ∧
    ((saveProductionPlan false false planDate fs store).1.filter
        (fun p => decide (p.plan_date = planDate))).Pairwise
      (fun a b =>
        (a.product_id, a.time_period) ≠ (b.product_id, b.time_period)) ∧
    ((saveProductionPlan false false planDate fs store).1.filter
        (fun p => decide (p.plan_date ≠ planDate))) =
      store.filter (fun p => decide (p.plan_date ≠ planDate)) := by
  have hrows := planRow_date planDate fs
  have hkeep : ∀ r ∈ store.filter (fun p => decide (p.plan_date ≠ planDate)),
      (fun p => decide (p.plan_date ≠ planDate)) r = true := by
    intro r hr
    exact (List.mem_filter.mp hr).2
  have hfilNe : (fs.map (toPlanRow planDate)).filter
      (fun p => decide (p.plan_date ≠ planDate)) = [] :=
    List.filter_eq_nil_iff.mpr (fun r hr => by simp [hrows r hr])
  have hfilEq : (fs.map (toPlanRow planDate)).filter
      (fun p => decide (p.plan_date = planDate)) = fs.map (toPlanRow planDate) :=
    List.filter_eq_self.mpr (fun r hr => by simp [hrows r hr])
  have hstoreEq : (store.filter (fun p => decide (p.plan_date ≠ planDate))).filter
      (fun p => decide (p.plan_date = planDate)) = [] :=
    List.filter_eq_nil_iff.mpr (fun r hr => by
      have := of_decide_eq_true (hkeep r hr)
      simp [this])
  have hstoreNe : (store.filter (fun p => decide (p.plan_date ≠ planDate))).filter
      (fun p => decide (p.plan_date ≠ planDate)) =
      store.filter (fun p => decide (p.plan_date ≠ planDate)) :=
    List.filter_eq_self.mpr hkeep
  rw [saveProductionPlan_ok planDate fs store hfs]
  rw [saveProductionPlan_ok planDate fs _ hfs]
  refine ⟨?_, ?_, ?_, ?_⟩
  · rw [List.filter_append, hfilNe, hstoreNe, List.append_nil]
  · rw [List.filter_append, hfilEq, hstoreEq, List.nil_append]
  · rw [List.filter_append, hfilEq, hstoreEq, List.nil_append]
    exact List.Pairwise.map (toPlanRow planDate) (fun a b hab => hab) hkeys
  · rw [List.filter_append, hfilNe, hstoreNe, List.append_nil]

/-- Concrete instance of claim C3 at date 77. -/
theorem claim3_witness :
    (saveProductionPlan false false 77 wForecasts
        (saveProductionPlan false false 77 wForecasts wStore).1).1 =
      (saveProductionPlan false false 77 wForecasts wStore).1 ∧
    ((saveProductionPlan false false 77 wForecasts wStore).1.filter
        (fun p => decide (p.plan_date = 77))) =
      wForecasts.map (toPlanRow 77) ∧
    ((saveProductionPlan false false 77 wForecasts wStore).1.filter
        (fun p => decide (p.plan_date = 77))).Pairwise
      (fun a b =>
        (a.product_id, a.time_period) ≠ (b.product_id, b.time_period)) ∧
    ((saveProductionPlan false false 77 wForecasts wStore).1.filter
        (fun p => decide (p.plan_date ≠ 77))) =
      wStore.filter (fun p => decide (p.plan_date ≠ 77)) :=
  claim3_commit_idempotent_replace 77 wForecasts wStore (by decide) (by decide)

/-- Counterexample to claim C5: committing an empty forecast set against a
store holding a plan row for the target date is rejected with an error toast
and does not clear that row. -/
theorem claim5_counterexample :
    saveProductionPlan false false 77 [] wStore =
      (wStore, ⟨"No forecast to save. Generate forecast first.",
        ToastType.error⟩) ∧
    wStore.filter (fun p => decide (p.plan_date = 77)) ≠ [] := by
  constructor
  · rfl
  · decide

/-- Claim C5 as amended: committing an empty forecast set is rejected with an
error toast and leaves the store untouched, for every store and date. -/
theorem claim5_amended_empty_commit_rejected (deleteFails insertFails : Bool)
    (planDate : Nat) (store : List ProductionPlan) :
    saveProductionPlan deleteFails insertFails planDate [] store =
      (store, ⟨"No forecast to save. Generate forecast first.",
        ToastType.error⟩) := by
  rfl

/-- Counterexample to claim C8: when the delete phase fails (its result is
discarded by the code) and the insert succeeds, the commit reports success
while the stale row for the date survives next to the freshly inserted row
for the same (date, product, slot) key. -/
theorem claim8_counterexample :
    saveProductionPlan true false 77 wForecasts wStore =
      ([⟨77, "pA", TimePeriod.Lunch, 5, none⟩,
        ⟨60, "pB", TimePeriod.Breakfast, 2, none⟩,
        ⟨77, "pA", TimePeriod.Lunch, 12, none⟩],
        ⟨"Production plan saved successfully", ToastType.success⟩) := by
  rfl

/-- Claim C8 as amended: the two phases run independently. A failed delete is
ignored and a successful insert appends the new rows to the unchanged store,
reported as success; a failed insert after a successful delete leaves the
date cleared with nothing inserted, reported as an error. -/
theorem claim8_amended_nonatomic_commit (planDate : Nat)
    (fs : List ForecastItem) (store : List ProductionPlan) (hfs : fs ≠ []) :
    saveProductionPlan true false planDate fs store =
      (store ++ fs.map (toPlanRow planDate),
        ⟨"Production plan saved successfully", ToastType.success⟩) ∧
    saveProductionPlan false true planDate fs store =
      (store.filter (fun p => decide (p.plan_date ≠ planDate)),
        ⟨"Failed to save production plan", ToastType.error⟩) := by
  constructor
  · unfold saveProductionPlan
    rw [if_neg hfs]
    rfl
  · unfold saveProductionPlan
    rw [if_neg hfs]
    rfl

/-- Concrete instance of amended claim C8 at date 77. -/
theorem claim8_witness :
    saveProductionPlan true false 77 wForecasts wStore =
      (wStore ++ wForecasts.map (toPlanRow 77),
        ⟨"Production plan saved successfully", ToastType.success⟩) ∧
    saveProductionPlan false true 77 wForecasts wStore =
      (wStore.filter (fun p => decide (p.plan_date ≠ 77)),
        ⟨"Failed to save production plan", ToastType.error⟩) :=
  claim8_amended_nonatomic_commit 77 wForecasts wStore (by decide)

/-- Counterexample to claim C4: the input string "-3" parses to the negative
integer -3 and is nevertheless accepted and stored as the manual override;
no non-negativity check exists in `updateManualOverride`. -/
theorem claim4_counterexample :
    (updateManualOverride "pA" TimePeriod.Lunch "-3" [wItem8]).map
        ForecastItem.manual_override = [some (-3)] ∧
    (-3 : Int) < 0 := by
  constructor
  · decide
  · decide

/-- Claim C4 as amended: an override is accepted whenever `parseInt` yields a
number, negative values included; an empty or unparsable input stores no
override and the displayed final quantity falls back to the computed
forecast; committing override 5 against computed forecast 8 persists
`forecast_quantity = 8`, `adjusted_quantity = 5`, displayed quantity 5. -/
theorem claim4_amended_override_rules (pid : String) (tp : TimePeriod)
    (v : String) (prev : List ForecastItem) :
    ((v = "" ∨ parseIntJS v = none) →
      ∀ g ∈ updateManualOverride pid tp v prev,
        (g.product_id = pid ∧ g.time_period = tp) →
          g.manual_override = none ∧
          displayedFinalQty g = (g.forecast_quantity : Int)) ∧
    (∀ n : Int, parseIntJS v = some n →
      ∀ g ∈ updateManualOverride pid tp v prev,
        (g.product_id = pid ∧ g.time_period = tp) →
          g.manual_override = some n) ∧
    (updateManualOverride "pA" TimePeriod.Lunch "5" [wItem8] =
      [{ wItem8 with manual_override := some 5 }] ∧
    displayedFinalQty { wItem8 with manual_override := some 5 } = 5 ∧
    saveProductionPlan false false 77
        [{ wItem8 with manual_override := some 5 }] [] =
      ([⟨77, "pA", TimePeriod.Lunch, 8, some 5⟩],
        ⟨"Production plan saved successfully", ToastType.success⟩)) := by
  have hmem : ∀ g ∈ updateManualOverride pid tp v prev,
      (∃ x ∈ prev,
        (x.product_id = pid ∧ x.time_period = tp ∧
          g = { x with
                  manual_override := if v = "" then none else parseIntJS v }) ∨
        (¬(x.product_id = pid ∧ x.time_period = tp) ∧ g = x)) := by
    intro g hg
    unfold updateManualOverride at hg
    obtain ⟨x, hx, hgx⟩ := List.mem_map.mp hg
    refine ⟨x, hx, ?_⟩
    by_cases h : x.product_id = pid ∧ x.time_period = tp
    · rw [if_pos h] at hgx
      exact Or.inl ⟨h.1, h.2, hgx.symm⟩
    · rw [if_neg h] at hgx
      exact Or.inr ⟨h, hgx.symm⟩
  refine ⟨?_, ?_, by decide, by decide, by decide⟩
  · intro hinv g hg hgm
    obtain ⟨x, _, hcase⟩ := hmem g hg
    rcases hcase with ⟨_, _, rfl⟩ | ⟨hnm, rfl⟩
    · have hnone : (if v = "" then none else parseIntJS v) = none := by
        rcases hinv with hv | hp
        · rw [if_pos hv]
        · by_cases hv : v = ""
          · rw [if_pos hv]
          · rw [if_neg hv]; exact hp
      refine ⟨hnone, ?_⟩
      unfold displayedFinalQty
      rw [show ({ x with manual_override :=
          if v = "" then none else parseIntJS v } : ForecastItem).manual_override
        = (if v = "" then none else parseIntJS v) from rfl, hnone]
      rfl
    · exact absurd hgm hnm
  · intro n hn g hg hgm
    obtain ⟨x, _, hcase⟩ := hmem g hg
    rcases hcase with ⟨_, _, rfl⟩ | ⟨hnm, rfl⟩
    · have hv : v ≠ "" := by
        intro hv
        rw [hv, show parseIntJS "" = none from rfl] at hn
        exact Option.noConfusion hn
      rw [show ({ x with manual_override :=
          if v = "" then none else parseIntJS v } : ForecastItem).manual_override
        = (if v = "" then none else parseIntJS v) from rfl, if_neg hv]
      exact hn
    · exact absurd hgm hnm

/-- Concrete instance of amended claim C4: unparsable input "abc" falls back,
input "7" is stored, plus the override-5-against-forecast-8 example. -/
theorem claim4_witness :
    (∀ g ∈ updateManualOverride "pA" TimePeriod.Lunch "abc" [wItem8],
      (g.product_id = "pA" ∧ g.time_period = TimePeriod.Lunch) →
        g.manual_override = none ∧
        displayedFinalQty g = (g.forecast_quantity : Int)) ∧
    (∀ g ∈ updateManualOverride "pA" TimePeriod.Lunch "7" [wItem8],
      (g.product_id = "pA" ∧ g.time_period = TimePeriod.Lunch) →
        g.manual_override = some 7) ∧
    updateManualOverride "pA" TimePeriod.Lunch "5" [wItem8] =
      [{ wItem8 with manual_override := some 5 }] := by
  refine ⟨(claim4_amended_override_rules "pA" TimePeriod.Lunch "abc"
      [wItem8]).1 (Or.inr (by decide)), ?_,
    (claim4_amended_override_rules "pA" TimePeriod.Lunch "5" [wItem8]).2.2.1⟩
  intro g hg
  exact (claim4_amended_override_rules "pA" TimePeriod.Lunch "7" [wItem8]).2.1
    7 (by decide) g hg

/-- Counterexample to claim C6: with no active products the code signals an
error-type toast, not an informational one. -/
theorem claim6_counterexample :
    generateForecasts false false [] [] 30 [] =
      ([], ⟨"No active products found", ToastType.error⟩) ∧
    ToastType.error ≠ ToastType.info := by
  constructor
  · rfl
  · decide

/-- Claim C6 as amended: an empty active-product set yields an error-type
notification with the forecast state untouched; a non-empty active set with
no qualifying history anywhere yields an empty result with an info-type
notification, whose severity differs from the hard-failure error toast. -/
theorem claim6_amended_empty_result_signalling (catalog : List Product)
    (ledger : List SalesData) (today : Nat) (prev : List ForecastItem) :
    (catalog.filter Product.active = [] →
      generateForecasts false false catalog ledger today prev =
        (prev, ⟨"No active products found", ToastType.error⟩)) ∧
    (sortByName (catalog.filter Product.active) ≠ [] →
      computeForecasts (sortByName (catalog.filter Product.active))
        (sortByDateDesc
          (ledger.filter fun s => decide (today - 28 ≤ s.sale_date)))
        (getDay (today + 1)) = [] →
      generateForecasts false false catalog ledger today prev =
        ([], ⟨"No forecast data available. This is likely your first week - enter quantities manually.",
          ToastType.info⟩)) ∧
    ((generateForecasts true false catalog ledger today prev).2.ttype =
        ToastType.error ∧
      ToastType.info ≠ ToastType.error) := by
  refine ⟨?_, ?_, rfl, by decide⟩
  · intro h
    unfold generateForecasts
    rw [h]
    rfl
  · intro h1 h2
    unfold generateForecasts
    simp only [Bool.false_eq_true, if_false]
    rw [if_neg h1, if_pos h2, h2]

/-- Concrete instance of amended claim C6: an all-inactive catalog, an active
catalog with an empty ledger, and the hard-failure toast severity. -/
theorem claim6_witness :
    (generateForecasts false false [⟨"pX", "X", false⟩] [] 30 [] =
      ([], ⟨"No active products found", ToastType.error⟩)) ∧
    (generateForecasts false false [wProduct] [] 30 [] =
      ([], ⟨"No forecast data available. This is likely your first week - enter quantities manually.",
        ToastType.info⟩)) ∧
    (generateForecasts true false [wProduct] [] 30 []).2.ttype =
      ToastType.error := by
  refine ⟨(claim6_amended_empty_result_signalling [⟨"pX", "X", false⟩] [] 30
      []).1 (by decide),
    (claim6_amended_empty_result_signalling [wProduct] [] 30 []).2.1
      (by decide) (by decide),
    (claim6_amended_empty_result_signalling [wProduct] [] 30 []).2.2.1⟩

/-- Emission for a pair with qualifying history always succeeds. -/
theorem forecastForPair_of_ne {p : Product} {tp : TimePeriod} {dow : Nat}
    {sd : List SalesData} (hne : relevantSales p.id tp dow sd ≠ []) :
    ∃ item, forecastForPair p tp dow sd = some item := by
  unfold forecastForPair
  rw [if_neg hne]
  exact ⟨_, rfl⟩

/-- Claim C7: every emitted item has a non-negative integral forecast,
`weeks_of_data` between 1 and 3, and the low-confidence flag exactly when
fewer than three weeks informed it; and every pair with qualifying history
contributes its item to the returned set, flagged or not. -/
theorem claim7_item_invariants (products : List Product)
    (salesData : List SalesData) (dow : Nat) :
    (∀ item ∈ computeForecasts products salesData dow,
      0 ≤ item.forecast_quantity ∧
      1 ≤ item.weeks_of_data ∧ item.weeks_of_data ≤ 3 ∧
      (item.has_warning = true ↔ item.weeks_of_data < 3)) ∧
    (∀ p ∈ products, ∀ info ∈ TIME_PERIODS,
      relevantSales p.id info.value dow salesData ≠ [] →
      ∃ item ∈ computeForecasts products salesData dow,
        item.product_id = p.id ∧ item.time_period = info.value ∧
        item.has_warning =
          decide ((recentSalesFor p.id info.value dow salesData).length < 3)) := by
  constructor
  · intro item hitem
    obtain ⟨p, _, info, _, hpair⟩ := mem_computeForecasts_iff.mp hitem
    obtain ⟨hne, _, _, _, hweeks, _, hwarn, _⟩ := forecastForPair_some_spec hpair
    have hlen : (recentSalesFor p.id info.value dow salesData).length =
        min 3 (relevantSales p.id info.value dow salesData).length := by
      unfold recentSalesFor
      exact List.length_take 3 _
    have hpos : 0 < (relevantSales p.id info.value dow salesData).length :=
      List.length_pos.mpr hne
    refine ⟨Nat.zero_le _, ?_, ?_, ?_⟩
    · rw [hweeks, hlen]; omega
    · rw [hweeks, hlen]; omega
    · rw [hweeks, hwarn]
      exact decide_eq_true_iff
  · intro p hp info hinfo hne
    obtain ⟨item, hpair⟩ := forecastForPair_of_ne hne
    obtain ⟨_, hid, _, htp, hweeks, _, hwarn, _⟩ :=
      forecastForPair_some_spec hpair
    refine ⟨item, ?_, hid, htp, by rw [hwarn]⟩
    exact mem_computeForecasts_iff.mpr ⟨p, hp, info, hinfo, hpair⟩

/-- Concrete instance of claim C7 at product pA, slot Lunch, Sunday. -/
theorem claim7_witness :
    (∀ item ∈ computeForecasts [wProduct] wSales3 0,
      0 ≤ item.forecast_quantity ∧
      1 ≤ item.weeks_of_data ∧ item.weeks_of_data ≤ 3 ∧
      (item.has_warning = true ↔ item.weeks_of_data < 3)) ∧
    (∃ item ∈ computeForecasts [wProduct] wSales3 0,
      item.product_id = wProduct.id ∧
      item.time_period = TimePeriod.Lunch ∧
      item.has_warning =
        decide ((recentSalesFor wProduct.id TimePeriod.Lunch 0 wSales3).length
          < 3)) := by
  refine ⟨(claim7_item_invariants [wProduct] wSales3 0).1, ?_⟩
  exact (claim7_item_invariants [wProduct] wSales3 0).2 wProduct (by decide)
    ⟨TimePeriod.Lunch, "Lunch", "11am-3pm"⟩ (by decide) (by decide)

/-- Any list of quantities that are all at least one sums to at least its
length. -/
theorem length_le_sum_of_one_le :
    ∀ l : List Nat, (∀ q ∈ l, 1 ≤ q) → l.length ≤ l.sum := by
  intro l
  induction l with
  | nil => intro _; simp
  | cons q qs ih =>
    intro h
    simp only [List.length_cons, List.sum_cons]
    have h1 := h q (List.mem_cons_self q qs)
    have h2 := ih fun x hx => h x (List.mem_cons_of_mem q hx)
    omega

/-- Claim C9: under the sales-ledger invariant that every recorded quantity
is strictly positive, every emitted forecast quantity is at least one. -/
theorem claim9_forecast_positive (products : List Product)
    (salesData : List SalesData) (dow : Nat)
    (hpos : ∀ s ∈ salesData, 1 ≤ s.quantity_sold) :
    ∀ item ∈ computeForecasts products salesData dow,
      1 ≤ item.forecast_quantity := by
  intro item hitem
  obtain ⟨p, _, info, _, hpair⟩ := mem_computeForecasts_iff.mp hitem
  obtain ⟨hne, _, _, _, _, hqty, _, _⟩ := forecastForPair_some_spec hpair
  have hsub : ∀ t ∈ recentSalesFor p.id info.value dow salesData,
      t ∈ salesData := by
    intro t ht
    have h1 : t ∈ relevantSales p.id info.value dow salesData :=
      List.take_subset 3 _ ht
    unfold relevantSales at h1
    exact List.mem_of_mem_filter h1
  have hlen : 0 < (recentSalesFor p.id info.value dow salesData).length := by
    unfold recentSalesFor
    rw [List.length_take]
    have := List.length_pos.mpr hne
    omega
  have hsum : (recentSalesFor p.id info.value dow salesData).length ≤
      ((recentSalesFor p.id info.value dow salesData).map
        SalesData.quantity_sold).sum := by
    have := length_le_sum_of_one_le
      ((recentSalesFor p.id info.value dow salesData).map
        SalesData.quantity_sold)
      (fun q hq => by
        obtain ⟨t, ht, rfl⟩ := List.mem_map.mp hq
        exact hpos t (hsub t ht))
    rwa [List.length_map] at this
  rw [hqty, Nat.le_div_iff_mul_le hlen, one_mul]
  omega

/-- Concrete instance of claim C9: the item emitted for (pA, Lunch) on the
witness ledger has a strictly positive forecast quantity. -/
theorem claim9_witness :
    1 ≤ (ForecastItem.mk "pA" "Bread" TimePeriod.Lunch 12 none (some 10) 3
      false).forecast_quantity :=
  claim9_forecast_positive [wProduct] wSales3 0 (by decide)
    (ForecastItem.mk "pA" "Bread" TimePeriod.Lunch 12 none (some 10) 3 false)
    (by decide)

/-- Claim C10: updating one manual override changes at most the
`manual_override` field of the matching item and leaves every non-matching
item fully unchanged (pointwise frame over the forecast state). -/
theorem claim10_override_frame (productId : String) (timePeriod : TimePeriod)
    (value : String) (prev : List ForecastItem) :
    List.Forall₂ (fun old new =>
      new.product_id = old.product_id ∧
      new.product_name = old.product_name ∧
      new.time_period = old.time_period ∧
      new.forecast_quantity = old.forecast_quantity ∧
      new.last_week_quantity = old.last_week_quantity ∧
      new.weeks_of_data = old.weeks_of_data ∧
      new.has_warning = old.has_warning ∧
      (¬(old.product_id = productId ∧ old.time_period = timePeriod) →
        new = old))
      prev (updateManualOverride productId timePeriod value prev) := by
  unfold updateManualOverride
  induction prev with
  | nil => exact List.Forall₂.nil
  | cons f fs ih =>
    rw [List.map_cons]
    refine List.Forall₂.cons ?_ ih
    by_cases h : f.product_id = productId ∧ f.time_period = timePeriod
    · rw [if_pos h]
      exact ⟨rfl, rfl, rfl, rfl, rfl, rfl, rfl, fun hc => absurd h hc⟩
    · rw [if_neg h]
      exact ⟨rfl, rfl, rfl, rfl, rfl, rfl, rfl, fun _ => rfl⟩
